import Mathlib

/-!
Verification development for the tritonfoodworks dashboard repository.

The repository is a TypeScript dashboard that classifies spreadsheet tabs,
normalizes loosely formatted cell values, and aggregates production, quality
and financial metrics.  This file gives a shallow embedding of the data model
and of the functions in src/app/page.tsx, src/components/ModernExcelDashboard.tsx
and the real-time client page (src/unnamed/part_002), and proves or refutes the
frozen claims about them.

Modelling conventions:
  * JavaScript numbers are modelled as rationals (Rat); parseFloat is modelled
    by jsParseFloat, which implements the decimal-literal grammar (optional
    sign, digits, decimal point, exponent) and returns none for NaN.
  * Spreadsheet rows are association lists from field name to string value;
    property access yielding undefined is modelled by Option.
  * Wall-clock time (new Date()) and native date-string parsing (new Date(s))
    are passed in explicitly: a millisecond timestamp now and a parse oracle
    dparse.  A concrete ISO yyyy-mm-dd parser isoDateParse instantiates the
    oracle in closed statements.
  * Presentational strings built by template interpolation (card subtitles,
    ISO timestamps) are elided from embedded structures; all numeric and
    ordering content is kept.
-/

namespace TFW

attribute [local semireducible] Rat.add Rat.mul Rat.inv Rat.sub

/-! ### JavaScript string primitives -/

/-- Checks whether the first list is an initial segment of the second. -/
def leadMatch : List Char → List Char → Bool
  | [], _ => true
  | _ :: _, [] => false
  | a :: as, b :: bs => a = b && leadMatch as bs

/-- Checks whether pat occurs as a contiguous sublist of the text. -/
def hasSubList (pat : List Char) : List Char → Bool
  | [] => leadMatch pat []
  | c :: rest => leadMatch pat (c :: rest) || hasSubList pat rest

/-- Model of JavaScript s.includes(pat). -/
def strContains (s pat : String) : Bool := hasSubList pat.data s.data

/-- Model of JavaScript String.prototype.toLowerCase restricted to the ASCII
range (all field names and keywords in this repository are ASCII apart from
the rupee sign, which both functions leave unchanged). -/
def jsToLower (s : String) : String := String.mk (s.data.map Char.toLower)

/-- Model of JavaScript String.prototype.toUpperCase restricted to ASCII. -/
def jsToUpper (s : String) : String := String.mk (s.data.map Char.toUpper)

/-! ### JavaScript number parsing -/

/-- Numeric value of a decimal digit character. -/
def digitVal (c : Char) : Nat := c.toNat - 48

/-- Natural number denoted by a list of decimal digit characters. -/
def natOfDigits (ds : List Char) : Nat := ds.foldl (fun n c => 10 * n + digitVal c) 0

/-- Whitespace characters skipped by parseFloat. -/
def jsIsSpace (c : Char) : Bool := c = ' ' || c = '\t' || c = '\n' || c = '\r'

/-- Model of String.prototype.trim on the common ASCII whitespace
characters. -/
def jsTrim (s : String) : String :=
  String.mk (((s.data.dropWhile jsIsSpace).reverse.dropWhile jsIsSpace).reverse)

/-- Splits an optional leading sign off a character list, returning the sign
as a rational factor together with the remainder. -/
def splitSign : List Char → Rat × List Char
  | '+' :: r => (1, r)
  | '-' :: r => (-1, r)
  | r => (1, r)

/-- Parses an optional exponent part (e or E, optional sign, digits).  When no
well-formed exponent follows, it is not consumed and the exponent is zero,
matching parseFloat which stops at the first invalid character. -/
def parseExpPart : List Char → Int
  | 'e' :: r => parseExpPartSigned r
  | 'E' :: r => parseExpPartSigned r
  | _ => 0
where
  /-- Parses the signed digit string after an exponent marker. -/
  parseExpPartSigned : List Char → Int
    | '+' :: r => if (r.takeWhile Char.isDigit) = [] then 0 else (natOfDigits (r.takeWhile Char.isDigit) : Int)
    | '-' :: r => if (r.takeWhile Char.isDigit) = [] then 0 else -(natOfDigits (r.takeWhile Char.isDigit) : Int)
    | r => if (r.takeWhile Char.isDigit) = [] then 0 else (natOfDigits (r.takeWhile Char.isDigit) : Int)

/-- Model of JavaScript parseFloat on the decimal-literal grammar: leading
whitespace, optional sign, integer digits, optional fraction, optional
exponent; none models NaN (no digits at the front of the input).  The textual
forms Infinity and -Infinity are not modelled; no input in this development
produces them. -/
def jsParseFloat (s : String) : Option Rat :=
  let cs := s.data.dropWhile jsIsSpace
  let (sgn, r0) := splitSign cs
  let ip := r0.takeWhile Char.isDigit
  let r1 := r0.dropWhile Char.isDigit
  let fp :=
    match r1 with
    | '.' :: r2 => r2.takeWhile Char.isDigit
    | _ => []
  let rExp :=
    match r1 with
    | '.' :: r2 => r2.dropWhile Char.isDigit
    | r => r
  if ip = [] ∧ fp = [] then none
  else
    let mant : Rat := (natOfDigits ip : Rat) + (natOfDigits fp : Rat) / ((10 : Rat) ^ fp.length)
    let e : Int := if ip = [] ∧ fp = [] then 0 else parseExpPart rExp
    some (sgn * mant * (10 : Rat) ^ e)

/-- Model of the JavaScript idiom x || 0 applied to a parseFloat result:
NaN becomes 0, and 0 stays 0, so the value is just the parse or 0. -/
def orZero (o : Option Rat) : Rat := o.getD 0

/-! ### Data model: rows, sheets, snapshots -/

/-- A spreadsheet row: an association list from field name to cell string.
Property access row[k] yielding undefined is modelled by Option. -/
def Row : Type := List (String × String)

/-- Model of JavaScript property access row[k]; none models undefined. -/
def rowGet (r : Row) (k : String) : Option String :=
  ((r.filter (fun p => p.1 = k)).head?).map (fun p => p.2)

/-- Model of JavaScript truthiness of row[k]: present and not the empty
string (all cell values are strings in the SheetsData input contract). -/
def rowTruthy (r : Row) (k : String) : Bool :=
  match rowGet r k with
  | none => false
  | some s => !(s = "")

/-- One spreadsheet tab, as in the SheetsData type of the repository:
an ordered header list and a list of rows. -/
structure Sheet where
  headers : List String
  rows : List Row

/-- A full snapshot: ordered mapping from sheet name to sheet, modelling a
JavaScript object whose key order is insertion order. -/
def SheetsData : Type := List (String × Sheet)

/-- Looks a sheet up by exact name, modelling sheetsData[name]. -/
def sdGet (S : SheetsData) (name : String) : Option Sheet :=
  ((S.filter (fun p => p.1 = name)).head?).map (fun p => p.2)

/-- Model of the idiom sheetsData?.Name?.rows || [] used by the aggregators. -/
def sheetRows (S : SheetsData) (name : String) : List Row :=
  match sdGet S name with
  | none => []
  | some sh => sh.rows

/-! ### page.tsx utility functions -/

/-- Embeds cleanNumericValue from src/app/page.tsx: on null/undefined return
0, otherwise delete every occurrence of the characters in the regex class
[,kg₹$] (comma, the letters k and g, the rupee and dollar signs — note the
euro, pound and yen signs are not in the class) and parse with parseFloat,
defaulting to 0. -/
def cleanNumericValue (v : Option String) : Rat :=
  match v with
  | none => 0
  | some s => orZero (jsParseFloat ⟨s.data.filter (fun c => !(c = ',' || c = 'k' || c = 'g' || c = '₹' || c = '$'))⟩)

/-- Embeds tryFieldNames from src/app/page.tsx: return the cleaned value of
the first field of the candidate list that is present (not undefined) on the
row, else 0. -/
def tryFieldNames (r : Row) : List String → Rat
  | [] => 0
  | f :: fs =>
    match rowGet r f with
    | some v => cleanNumericValue (some v)
    | none => tryFieldNames r fs

/-! ### Concrete model of native date parsing

The aggregators call new Date(string) and compare with new Date().  The
embedding passes the runtime date parser in as an explicit oracle
dparse : String → Option Int (UTC milliseconds; none models an invalid
date, whose comparisons are all false in JavaScript) and the current time
as now : Int.  For closed statements the oracle is instantiated with
isoDateParse, a faithful model of new Date on strict yyyy-mm-dd input,
which ECMAScript parses as a UTC date. -/

/-- Gregorian leap-year test. -/
def isLeapYear (y : Nat) : Bool := y % 4 = 0 && (y % 100 ≠ 0 || y % 400 = 0)

/-- Number of days in a month (1-based) of a given year. -/
def daysInMonth (y m : Nat) : Nat :=
  if m = 2 then (if isLeapYear y then 29 else 28)
  else if m = 4 ∨ m = 6 ∨ m = 9 ∨ m = 11 then 30
  else 31

/-- Days contributed by the whole months strictly before month m. -/
def daysBeforeMonth (y m : Nat) : Nat :=
  ((List.range (m - 1)).map (fun i => daysInMonth y (i + 1))).foldl (· + ·) 0

/-- Days between 1970-01-01 and the start of year y (for y at least 1970). -/
def daysBeforeYear (y : Nat) : Nat :=
  ((List.range (y - 1970)).map (fun i => if isLeapYear (1970 + i) then 366 else 365)).foldl (· + ·) 0

/-- Model of new Date(s) for a strict yyyy-mm-dd string at or after 1970,
returning UTC milliseconds; none models an invalid date. -/
def isoDateParse (s : String) : Option Int :=
  match s.data.foldr (fun c acc =>
      if c = '-' then [] :: acc
      else match acc with
        | [] => [[c]]
        | g :: gs => (c :: g) :: gs) [[]] with
  | [ys, ms, ds] =>
    if ys.length = 4 && ms.length = 2 && ds.length = 2
        && ys.all Char.isDigit && ms.all Char.isDigit && ds.all Char.isDigit then
      let y := natOfDigits ys
      let m := natOfDigits ms
      let d := natOfDigits ds
      if 1970 ≤ y && 1 ≤ m && m ≤ 12 && 1 ≤ d && d ≤ daysInMonth y m then
        some (((daysBeforeYear y + daysBeforeMonth y m + (d - 1) : Nat) : Int) * 86400000)
      else none
    else none
  | _ => none

/-! ### page.tsx production and quality aggregators -/

/-- Embeds the ProductionMetrics interface of src/app/page.tsx. -/
structure ProductionMetrics where
  activeBatches : Nat
  totalExpectedYield : Rat
  totalHarvested : Rat
  harvestEfficiency : Rat
deriving DecidableEq

/-- Embeds the QualityMetrics interface of src/app/page.tsx. -/
structure QualityMetrics where
  rejectionRate : Rat
  avgQualityScore : Rat
  onTimePercentage : Rat
  totalDeliveries : Nat
  onTimeDeliveries : Nat
  totalHarvested : Rat
deriving DecidableEq

/-- Candidate names for the expected-yield column. -/
def expectedYieldFields : List String := ["ExpectedYield(kg)", "ExpectedYield", "Expected Yield"]

/-- Candidate names for the revised-yield column. -/
def revisedYieldFields : List String := ["RevisedYield(kg)", "RevisedYield", "Revised Yield"]

/-- Candidate names for the harvested-quantity column. -/
def harvestedFields : List String := ["QtyHarvested(kg)", "QtyHarvested", "Quantity Harvested", "Harvest Qty"]

/-- Candidate names for the rejected-quantity column. -/
def rejectedFields : List String := ["Rejected(kg)", "Rejected", "Qty Rejected"]

/-- Candidate names for the accepted-quantity column. -/
def acceptedFields : List String := ["Accepted(kg)", "Accepted", "Qty Accepted"]

/-- Candidate names for the quality-control score column. -/
def qcFields : List String := ["QC", "Quality", "QualityScore"]

/-- Model of the JavaScript idiom a || b on numbers: b when a is 0, else a. -/
def jsOr (a b : Rat) : Rat := if a = 0 then b else a

/-- Model of parseFloat(x.toFixed(1)): rounding to one decimal place, in
exact rational arithmetic. -/
def round1 (q : Rat) : Rat := ((round (q * 10) : Int) : Rat) / 10

/-- Model of parseFloat(x.toFixed(2)): rounding to two decimal places. -/
def round2 (q : Rat) : Rat := ((round (q * 100) : Int) : Rat) / 100

/-- Embeds the activeBatches filter body of calculateProductionMetrics:
a row counts when its ExpectedHarvest value is truthy and parses to a date
at or after now; an invalid date compares false. -/
def activeRow (dparse : String → Option Int) (now : Int) (r : Row) : Bool :=
  match rowGet r "ExpectedHarvest" with
  | none => false
  | some s =>
    if s = "" then false
    else
      match dparse s with
      | none => false
      | some t => now ≤ t

/-- Embeds calculateProductionMetrics from src/app/page.tsx.  The rows come
from the sheets literally named Batches and Harvest_Log (via
sheetsData?.Batches?.rows || []); per row the yield is revised || expected. -/
def calculateProductionMetrics (dparse : String → Option Int) (now : Int) (S : SheetsData) : ProductionMetrics :=
  let batches := sheetRows S "Batches"
  let harvestLog := sheetRows S "Harvest_Log"
  let activeBatches := (batches.filter (activeRow dparse now)).length
  let totalExpectedYield := batches.foldl
    (fun sum r => sum + jsOr (tryFieldNames r revisedYieldFields) (tryFieldNames r expectedYieldFields)) 0
  let totalHarvested := harvestLog.foldl (fun sum r => sum + tryFieldNames r harvestedFields) 0
  let harvestEfficiency :=
    if 0 < totalExpectedYield then round1 (totalHarvested / totalExpectedYield * 100) else 0
  ⟨activeBatches, totalExpectedYield, totalHarvested, harvestEfficiency⟩

/-- Accumulator of the harvest-quality reduce in calculateHarvestMetrics. -/
structure QAcc where
  totalHarvested : Rat
  totalRejected : Rat
  totalAccepted : Rat
  qcScores : List Rat

/-- Embeds the reduce step of calculateHarvestMetrics over one harvest row. -/
def qualityStep (acc : QAcc) (r : Row) : QAcc :=
  let harvested := tryFieldNames r harvestedFields
  let rejected := tryFieldNames r rejectedFields
  let accepted := tryFieldNames r acceptedFields
  let qc := tryFieldNames r qcFields
  { totalHarvested := acc.totalHarvested + harvested
    totalRejected := acc.totalRejected + rejected
    totalAccepted := acc.totalAccepted + accepted
    qcScores := if 0 < qc then acc.qcScores ++ [qc] else acc.qcScores }

/-- Sum of a list of rationals. -/
def ratListSum (l : List Rat) : Rat := l.foldl (· + ·) 0

/-- Embeds calculateHarvestMetrics from src/app/page.tsx: quality totals from
the sheet named Harvest_Log, deliveries from the sheet named Post_Harvest,
where a delivery is on time when its OnTime(0/1) cell is the string 1. -/
def calculateHarvestMetrics (S : SheetsData) : QualityMetrics :=
  let harvestLog := sheetRows S "Harvest_Log"
  let postHarvest := sheetRows S "Post_Harvest"
  let q := harvestLog.foldl qualityStep ⟨0, 0, 0, []⟩
  let rejectionRate :=
    if 0 < q.totalHarvested then round1 (q.totalRejected / q.totalHarvested * 100) else 0
  let avgQualityScore :=
    if 0 < q.qcScores.length then round1 (ratListSum q.qcScores / (q.qcScores.length : Rat)) else 0
  let onTimeDeliveries := (postHarvest.filter (fun r => rowGet r "OnTime(0/1)" = some "1")).length
  let totalDeliveries := postHarvest.length
  let onTimePercentage :=
    if 0 < totalDeliveries then round1 ((onTimeDeliveries : Rat) / (totalDeliveries : Rat) * 100) else 0
  ⟨rejectionRate, avgQualityScore, onTimePercentage, totalDeliveries, onTimeDeliveries, q.totalHarvested⟩

/-! ### page.tsx sheet classification -/

/-- One entry of SHEET_TYPE_CONFIG: classification tag, sheet-name keywords,
header substrings, display color and icon. -/
structure SheetTypeEntry where
  stype : String
  keywords : List String
  hdrs : List String
  color : String
  icon : String

/-- Embeds SHEET_TYPE_CONFIG from src/app/page.tsx in declaration order. -/
def SHEET_TYPE_CONFIG : List SheetTypeEntry := [
  ⟨"production-batches", ["BATCH"], ["BatchID", "SownDate"], "green", "🌱"⟩,
  ⟨"harvest-tracking", ["HARVEST"], ["QtyHarvested", "HarvestDate"], "orange", "🌾"⟩,
  ⟨"sourcing-procurement", ["SOURCING", "PROCUREMENT"], ["Vendor", "Supplier"], "blue", "🚚"⟩,
  ⟨"post-harvest-logistics", ["POST_HARVEST", "POST-HARVEST"], ["Sorting", "Packaging", "Transit"], "purple", "📦"⟩,
  ⟨"financial-revenue", [], ["Revenue", "Income", "Sales"], "emerald", "💰"⟩,
  ⟨"financial-expense", [], ["Expense", "Cost", "Amount"], "red", "💸"⟩,
  ⟨"production-settings", ["SETTINGS"], ["PricePerKg", "GermDays"], "gray", "⚙️"⟩]

/-- Match test of one config entry inside detectSheetType: a keyword occurs
in the uppercased sheet name, or a configured header substring occurs
case-sensitively in some nonempty header. -/
def entryMatches (name : String) (headers : List String) (e : SheetTypeEntry) : Bool :=
  e.keywords.any (fun k => strContains (jsToUpper name) k) ||
    e.hdrs.any (fun hdr => headers.any (fun h => !(h = "") && strContains h hdr))

/-- Embeds detectSheetType from src/app/page.tsx: the first matching config
entry in declaration order wins, otherwise general. -/
def detectSheetType (name : String) (headers : List String) : String :=
  match SHEET_TYPE_CONFIG.find? (entryMatches name headers) with
  | some e => e.stype
  | none => "general"

/-- Embeds getSheetColor: the configured color of the detected type, with
slate as the fallback for general. -/
def getSheetColor (name : String) (headers : List String) : String :=
  match SHEET_TYPE_CONFIG.find? (fun e => e.stype = detectSheetType name headers) with
  | some e => e.color
  | none => "slate"

/-- Embeds getSheetIcon: the configured icon of the detected type, with a
document icon as the fallback for general. -/
def getSheetIcon (name : String) (headers : List String) : String :=
  match SHEET_TYPE_CONFIG.find? (fun e => e.stype = detectSheetType name headers) with
  | some e => e.icon
  | none => "📄"

/-! ### page.tsx financial detection -/

/-- Embeds the FinancialData interface of src/app/page.tsx; categories is the
size of the category set. -/
structure FinancialData where
  total : Rat
  sources : Nat
  categories : Nat
  records : Nat
  trend : String
deriving DecidableEq

/-- Embeds the searchFields selection in detectFinancialData: revenue
keywords or expense keywords. -/
def financialSearchFields (isRevenue : Bool) : List String :=
  if isRevenue then ["revenue", "income", "sales"]
  else ["expense", "cost", "amount", "outstanding"]

/-- Embeds the relevantColumns filter of detectFinancialData: a nonempty
header whose lowercase form contains a search keyword, or which contains the
rupee sign together with (for revenue) the text revenue, or (for expense)
without the text revenue. -/
def headerRelevant (isRevenue : Bool) (h : String) : Bool :=
  !(h = "") && (financialSearchFields isRevenue).any (fun f =>
    strContains (jsToLower h) f ||
      (strContains h "₹" &&
        (if isRevenue then strContains (jsToLower h) "revenue"
         else !(strContains (jsToLower h) "revenue"))))

/-- Fixed list of descriptive fields used to build the category set. -/
def categoryFields : List String := ["Crop", "Variety", "Type", "Department", "Vendor", "Description"]

/-- Running state of detectFinancialData: total, sources, category set (as a
duplicate-free insertion-ordered list) and record count. -/
structure FinAcc where
  total : Rat
  sources : Nat
  cats : List String
  records : Nat

/-- Adds the truthy descriptive fields of a row to the category set,
modelling Set.prototype.add. -/
def addCats (r : Row) (cats : List String) : List String :=
  categoryFields.foldl (fun cs f =>
    match rowGet r f with
    | none => cs
    | some v => if v = "" then cs else if cs.contains v then cs else cs ++ [v]) cats

/-- Per-column step of detectFinancialData inside one row: positive cleaned
values are added to the total and the record count, and the row's
descriptive fields enter the category set. -/
def finColStep (r : Row) (acc : FinAcc) (col : String) : FinAcc :=
  let value := cleanNumericValue (rowGet r col)
  if 0 < value then
    { total := acc.total + value
      sources := acc.sources
      cats := addCats r acc.cats
      records := acc.records + 1 }
  else acc

/-- Per-sheet step of detectFinancialData: sheets with no rows are skipped;
a sheet with at least one relevant column counts as one source and its rows
are scanned column by column. -/
def finSheetStep (isRevenue : Bool) (acc : FinAcc) (sh : Sheet) : FinAcc :=
  if sh.rows.length = 0 then acc
  else
    let cols := sh.headers.filter (headerRelevant isRevenue)
    if cols.length = 0 then acc
    else
      let acc1 : FinAcc := { acc with sources := acc.sources + 1 }
      sh.rows.foldl (fun a r => cols.foldl (finColStep r) a) acc1

/-- Embeds detectFinancialData from src/app/page.tsx: scans every sheet of
the snapshot, with no reference to the sheet classification. -/
def detectFinancialData (S : SheetsData) (isRevenue : Bool) : FinancialData :=
  let acc := S.foldl (fun a p => finSheetStep isRevenue a p.2) ⟨0, 0, [], 0⟩
  ⟨acc.total, acc.sources, acc.cats.length, acc.records, "neutral"⟩

/-- Embeds detectRevenueData. -/
def detectRevenueData (S : SheetsData) : FinancialData := detectFinancialData S true

/-- Embeds detectExpenseData. -/
def detectExpenseData (S : SheetsData) : FinancialData := detectFinancialData S false

/-- Embeds the FinancialMetrics object of calculateFinancialMetrics. -/
structure FinancialMetrics where
  revenue : Rat
  expenses : Rat
  profit : Rat
  profitMargin : Rat
  revenueStreams : Nat
  expenseCategories : Nat
deriving DecidableEq

/-- Embeds calculateFinancialMetrics from src/app/page.tsx. -/
def calculateFinancialMetrics (S : SheetsData) : FinancialMetrics :=
  let revenue := detectRevenueData S
  let expenses := detectExpenseData S
  let profit := revenue.total - expenses.total
  let profitMargin := if 0 < revenue.total then round2 (profit / revenue.total * 100) else 0
  ⟨revenue.total, expenses.total, profit, profitMargin, revenue.sources, expenses.categories⟩

/-! ### page.tsx summary cards and dashboard assembly -/

/-- One summary card.  The ctype field embeds the type property (type is a
reserved word in Lean); the presentational subtitle string, built by
template interpolation from the same numbers, is elided. -/
structure Card where
  title : String
  value : Rat
  ctype : String
  trend : String
  color : String
  icon : String
deriving DecidableEq

/-- Total record count over all sheets of a snapshot. -/
def totalRecordCount (S : SheetsData) : Nat :=
  S.foldl (fun sum p => sum + p.2.rows.length) 0

/-- Embeds generateAgriculturalSummaryCards from src/app/page.tsx: six fixed
cards, an on-time-delivery card pushed exactly when at least one delivery
exists, and a total-records card pushed last. -/
def generateAgriculturalSummaryCards (dparse : String → Option Int) (now : Int) (S : SheetsData) : List Card :=
  let production := calculateProductionMetrics dparse now S
  let quality := calculateHarvestMetrics S
  let revenue := detectRevenueData S
  let expenses := detectExpenseData S
  let profit := revenue.total - expenses.total
  let base : List Card := [
    ⟨"Total Revenue", revenue.total, "financial", "neutral", "green", "TrendingUp"⟩,
    ⟨"Total Expenses", expenses.total, "financial", "neutral", "red", "CreditCard"⟩,
    ⟨"Net Profit", profit, "financial",
      if 0 ≤ profit then "positive" else "negative",
      if 0 ≤ profit then "green" else "red",
      if 0 ≤ profit then "TrendingUp" else "TrendingDown"⟩,
    ⟨"Active Batches", (production.activeBatches : Rat), "production", "neutral", "blue", "Package"⟩,
    ⟨"Total Harvested", quality.totalHarvested, "production",
      if 80 ≤ production.harvestEfficiency then "positive" else "neutral", "orange", "Truck"⟩,
    ⟨"Quality Score", quality.avgQualityScore, "quality",
      if 7 ≤ quality.avgQualityScore then "positive" else "neutral", "purple", "Award"⟩]
  let withLogistics :=
    if 0 < quality.totalDeliveries then
      base ++ [⟨"On-Time Delivery", quality.onTimePercentage, "logistics",
        if 90 ≤ quality.onTimePercentage then "positive" else "neutral", "indigo", "Clock"⟩]
    else base
  withLogistics ++ [⟨"Total Records", (totalRecordCount S : Rat), "data", "neutral", "gray", "FileText"⟩]

/-- Embeds the metadata object of generateDynamicDashboard; the lastUpdated
wall-clock ISO string is elided. -/
structure Metadata where
  title : String
  totalSheets : Nat
  totalRecords : Nat
  businessType : String
  connectionStatus : String
deriving DecidableEq

/-- Embeds the operationalMetrics object of generateDynamicDashboard. -/
structure OperationalMetrics where
  total : Nat
  active : Nat
  completed : Nat
  pending : Nat
  completionRate : Rat
deriving DecidableEq

/-- Embeds one entry of the sheets array of generateDynamicDashboard. -/
structure SheetInfo where
  name : String
  stype : String
  records : Nat
  headers : List String
  color : String
  icon : String
  lastRecord : Option Row

/-- Embeds one entry of the sheetsConfig array of generateDynamicDashboard;
the metrics placeholder object (always empty) is elided. -/
structure SheetConfigEntry where
  name : String
  stype : String
  icon : String
  color : String
  recordCount : Nat
  headers : List String
  keyColumns : List String

/-- Embeds the DashboardSnapshot object returned by generateDynamicDashboard. -/
structure DashboardSnapshot where
  metadata : Metadata
  production : ProductionMetrics
  quality : QualityMetrics
  revenue : FinancialData
  expenses : FinancialData
  summaryCards : List Card
  financial : FinancialMetrics
  financialMetrics : FinancialMetrics
  operationalMetrics : OperationalMetrics
  sheets : List SheetInfo
  sheetsConfig : List SheetConfigEntry
  rawData : SheetsData

/-- Embeds generateDynamicDashboard from src/app/page.tsx.  Every field of
the snapshot is built unconditionally, so the output shape is the same for
every input. -/
def generateDynamicDashboard (dparse : String → Option Int) (now : Int) (S : SheetsData) : DashboardSnapshot :=
  let production := calculateProductionMetrics dparse now S
  let quality := calculateHarvestMetrics S
  let financial := calculateFinancialMetrics S
  let totalRecords := totalRecordCount S
  { metadata := ⟨"Triton Food Works Masterbook", S.length, totalRecords,
      "Agriculture & Food Processing", "connected"⟩
    production := production
    quality := quality
    revenue := detectRevenueData S
    expenses := detectExpenseData S
    summaryCards := generateAgriculturalSummaryCards dparse now S
    financial := financial
    financialMetrics := financial
    operationalMetrics := ⟨totalRecords, production.activeBatches, 0, 0, 0⟩
    sheets := S.map (fun p =>
      ⟨p.1, detectSheetType p.1 p.2.headers, p.2.rows.length, p.2.headers,
        getSheetColor p.1 p.2.headers, getSheetIcon p.1 p.2.headers, p.2.rows.getLast?⟩)
    sheetsConfig := S.map (fun p =>
      ⟨p.1, detectSheetType p.1 p.2.headers, getSheetIcon p.1 p.2.headers,
        getSheetColor p.1 p.2.headers, p.2.rows.length, p.2.headers, p.2.headers.take 3⟩)
    rawData := S }

/-! ### ModernExcelDashboard.tsx record-quality filter -/

/-- The string members of the EMPTY_VALUES sentinel list of
src/components/ModernExcelDashboard.tsx.  The non-string members (null,
undefined, the number 0) cannot occur among the string cell values of the
SheetsData input contract, and strict equality against them is false for
every string. -/
def EMPTY_STRINGS : List String := ["", "0", "N/A", "n/a", "na", "NA", "-", "null", "undefined"]

/-- Embeds isEmptyValue on string cell values: a literal sentinel, or a
whitespace-trimmed lowercase sentinel. -/
def isEmptyValue (v : String) : Bool :=
  EMPTY_STRINGS.contains v ||
    (let t := jsToLower (jsTrim v)
     t = "" || ["n/a", "na", "null", "undefined", "-"].contains t)

/-- Filler tokens skipped by the meaningful-field count. -/
def junkTokens : List String := ["tbd", "tbc", "pending", "temp", "test", "na", "n/a"]

/-- Fixed important-field list of hasMinimalContent. -/
def importantFieldList : List String :=
  ["BatchID", "Date", "Employee", "Vendor", "Description", "Amount", "Cost", "QtyHarvested"]

/-- A value is meaningful inside hasMinimalContent when it is not empty,
its trimmed form is longer than one character, and its trimmed lowercase
form is not a filler token (this mirrors the three continue conditions of
the loop, which all cell values reach since they are strings). -/
def meaningfulValue (v : String) : Bool :=
  !(isEmptyValue v) && 1 < (jsTrim v).length && !(junkTokens.contains (jsToLower (jsTrim v)))

/-- Embeds the important-field-name heuristic of hasMinimalContent: the
lowercased key contains a lowercased entry of the important list or equals
one, or contains one of the keywords id, name, amount, qty, price, cost. -/
def importantFieldName (k : String) : Bool :=
  let kl := jsToLower k
  importantFieldList.any (fun f => strContains kl (jsToLower f) || kl = jsToLower f) ||
    strContains kl "id" || strContains kl "name" || strContains kl "amount" ||
    strContains kl "qty" || strContains kl "price" || strContains kl "cost"

/-- One iteration of the hasMinimalContent loop: fields whose value is not
meaningful are skipped; a meaningful field raises the count and, when its
name is important and its value nonempty, sets the important flag. -/
def minimalStep (acc : Nat × Bool) (kv : String × String) : Nat × Bool :=
  if !(meaningfulValue kv.2) then acc
  else (acc.1 + 1, acc.2 || (importantFieldName kv.1 && !(isEmptyValue kv.2)))

/-- Embeds the loop of hasMinimalContent: a fold over the record entries
carrying the meaningful count and the important-field flag. -/
def minimalContentScan (r : Row) : Nat × Bool :=
  r.foldl minimalStep (0, false)

/-- Embeds hasMinimalContent from src/components/ModernExcelDashboard.tsx:
at least two meaningful fields and at least one important one. -/
def hasMinimalContent (r : Row) : Bool :=
  2 ≤ (minimalContentScan r).1 && (minimalContentScan r).2

/-! ### ModernExcelDashboard.tsx serial-date conversion -/

/-- Embeds the numeric range test of isExcelDate: a serial-date candidate
lies strictly between 30000 and 2958466. -/
def isExcelDateNum (q : Rat) : Bool := 30000 < q && q < 2958466

/-- Embeds the serial-to-milliseconds conversion of formatDate:
Date.UTC(1970,0,1) + (value - 25569) * 86400 * 1000. -/
def excelSerialToMillis (q : Rat) : Rat := (q - 25569) * 86400 * 1000

/-- UTC hour of a nonnegative millisecond timestamp, as getUTCHours
computes it (floor division, then remainder). -/
def utcHourOfMillis (ms : Int) : Int := Int.emod (Int.ediv ms 3600000) 24

/-- UTC minute of a nonnegative millisecond timestamp, as getUTCMinutes
computes it. -/
def utcMinuteOfMillis (ms : Int) : Int := Int.emod (Int.ediv ms 60000) 60

/-! ### Real-time client page (src/unnamed/part_002) -/

/-- Keeps exactly the characters of the regex class [\d.-], modelling
value.replace of extractNumericValue. -/
def rtKeepNumeric (s : String) : String :=
  String.mk (s.data.filter (fun c => c.isDigit || c = '.' || c = '-'))

/-- Embeds extractNumericValue from the real-time client page: the first
candidate field whose stripped value parses to a (finite) number yields its
absolute value, otherwise 0.  All cell values are strings per the SheetsData
contract, so the string branch applies; the model has no infinities, and no
stripped digit string parses to one in JavaScript either way at the inputs
of this development. -/
def extractNumericValue (r : Row) : List String → Rat
  | [] => 0
  | f :: fs =>
    match rowGet r f with
    | none => extractNumericValue r fs
    | some s =>
      match jsParseFloat (rtKeepNumeric s) with
      | none => extractNumericValue r fs
      | some q => |q|

/-- The client page's sheetsData shape: sheet name mapped directly to its
row array. -/
def RTSheets : Type := List (String × List Row)

/-- Amount-field candidates of the client revenue analysis. -/
def rtRevAmountFields : List String := ["amount", "revenue", "income", "value", "total"]

/-- Amount-field candidates of the client expense analysis. -/
def rtExpAmountFields : List String := ["amount", "expense", "cost", "value", "total"]

/-- Revenue-sheet name filter of the client page. -/
def rtIsRevenueName (n : String) : Bool :=
  strContains (jsToLower n) "revenue" || strContains (jsToLower n) "income" ||
    strContains (jsToLower n) "sales" || strContains (jsToLower n) "earnings"

/-- Expense-sheet name filter of the client page. -/
def rtIsExpenseName (n : String) : Bool :=
  strContains (jsToLower n) "expense" || strContains (jsToLower n) "cost" ||
    strContains (jsToLower n) "expenditure" || strContains (jsToLower n) "spending"

/-- Production-sheet name filter of the client page. -/
def rtIsProductionName (n : String) : Bool :=
  strContains (jsToLower n) "production" || strContains (jsToLower n) "harvest" ||
    strContains (jsToLower n) "batch" || strContains (jsToLower n) "crop"

/-- Quality-sheet name filter of the client page. -/
def rtIsQualityName (n : String) : Bool :=
  strContains (jsToLower n) "quality" || strContains (jsToLower n) "inspection" ||
    strContains (jsToLower n) "delivery" || strContains (jsToLower n) "logistics"

/-- Per-row revenue step of the client page: amounts extracted over the
candidate fields are added only when strictly positive. -/
def rtGuardedStep (fields : List String) (acc : Rat) (r : Row) : Rat :=
  let amount := extractNumericValue r fields
  if 0 < amount then acc + amount else acc

/-- Embeds the totalRevenue accumulator of the client page's
generateDynamicDashboard: sum over revenue-named sheets of the positive
extracted amounts. -/
def rtRevenueTotal (D : RTSheets) : Rat :=
  (D.filter (fun p => rtIsRevenueName p.1)).foldl
    (fun acc p => p.2.foldl (rtGuardedStep rtRevAmountFields) acc) 0

/-- Embeds the totalExpenses accumulator of the client page. -/
def rtExpenseTotal (D : RTSheets) : Rat :=
  (D.filter (fun p => rtIsExpenseName p.1)).foldl
    (fun acc p => p.2.foldl (rtGuardedStep rtExpAmountFields) acc) 0

/-- Embeds the totalHarvested accumulator of the client page's production
analysis: extracted harvested amounts are added unconditionally. -/
def rtHarvestedTotal (D : RTSheets) : Rat :=
  (D.filter (fun p => rtIsProductionName p.1)).foldl
    (fun acc p => p.2.foldl
      (fun a r => a + extractNumericValue r ["harvested", "actual_yield", "harvest_amount", "yield"]) acc) 0

/-- Embeds the rejectedItems accumulator of the client page's quality
analysis. -/
def rtRejectedTotal (D : RTSheets) : Rat :=
  (D.filter (fun p => rtIsQualityName p.1)).foldl
    (fun acc p => p.2.foldl
      (fun a r => a + extractNumericValue r ["rejected", "rejection_count", "failed_inspection"]) acc) 0

/-! ### Claim-side normalizer for the refinement comparison of C4 -/

/-- Follows the claim wording for normalizeAmount, written independently of
the code: strip the comma, the currency symbols ₹ $ € £ ¥, and a trailing
unit kg, then parse as a float, with 0 on failure or missing input. -/
def normalizeAmountClaimed (v : Option String) : Rat :=
  match v with
  | none => 0
  | some s =>
    let cs := s.data.filter (fun c =>
      !(c = ',' || c = '₹' || c = '$' || c = '€' || c = '£' || c = '¥'))
    let cs2 := if leadMatch ['g', 'k'] cs.reverse then (cs.reverse.drop 2).reverse else cs
    orZero (jsParseFloat (String.mk cs2))

/-! ### Concrete inputs used by the closed statements -/

/-- The revenue sheet of the financial-aggregation example in the spec:
header RevenueAmount, two Sales rows of ₹1,000 and ₹2,000. -/
def exampleRevenueSheet : Sheet :=
  ⟨["Category", "RevenueAmount"],
    [[("Category", "Sales"), ("RevenueAmount", "₹1,000")],
     [("Category", "Sales"), ("RevenueAmount", "₹2,000")]]⟩

/-- Snapshot holding exactly the example revenue sheet. -/
def exampleRevenueSnapshot : SheetsData := [("Sheet1", exampleRevenueSheet)]

/-- The same example with the category under the field Crop, which is one of
the descriptive fields the aggregator does read. -/
def exampleCropSnapshot : SheetsData :=
  [("Sheet1", ⟨["Crop", "RevenueAmount"],
    [[("Crop", "Sales"), ("RevenueAmount", "₹1,000")],
     [("Crop", "Sales"), ("RevenueAmount", "₹2,000")]]⟩)]

/-- A one-column snapshot whose header RevenueAmount contains both the
revenue keyword revenue and the expense keyword amount. -/
def bothKindsSnapshot : SheetsData :=
  [("Sheet1", ⟨["RevenueAmount"], [[("RevenueAmount", "1000")]]⟩)]

/-- A production row with a far-future expected harvest date. -/
def batchListRow : Row := [("BatchID", "B1"), ("ExpectedHarvest", "2030-01-01")]

/-- A sheet of one such row, with production-batches headers. -/
def batchListSheet : Sheet := ⟨["BatchID", "ExpectedHarvest"], [batchListRow]⟩

/-- The sheet under the name Batch_List, which classifies as
production-batches but is not the literal name Batches. -/
def misnamedBatchSnapshot : SheetsData := [("Batch_List", batchListSheet)]

/-- The identical sheet under the literal name Batches. -/
def namedBatchSnapshot : SheetsData := [("Batches", batchListSheet)]

/-- A fixed current time for the closed statements: a UTC millisecond
timestamp in October 2025, before the 2030 example date. -/
def sampleNow : Int := 1760000000000

/-- A snapshot with one recorded delivery, marked on time. -/
def deliverySnapshot : SheetsData :=
  [("Post_Harvest", ⟨["OnTime(0/1)"], [[("OnTime(0/1)", "1")]]⟩)]

/-- A snapshot with one sheet whose header and row lists are empty. -/
def emptySheetSnapshot : SheetsData := [("S", ⟨[], []⟩)]

/-- A Batches snapshot whose row has none of the expected columns. -/
def sparseRowSnapshot : SheetsData := [("Batches", ⟨["BatchID"], [[("Foo", "1")]]⟩)]

/-- Client-page sheets with a negative revenue amount. -/
def negRevenueSheets : RTSheets := [("Revenue", [[("amount", "-500")]])]

/-- Client-page sheets with a negative expense amount. -/
def negExpenseSheets : RTSheets := [("Expenses", [[("amount", "-500")]])]

/-- Client-page sheets with a negative harvested amount. -/
def negHarvestSheets : RTSheets := [("Harvest_2024", [[("harvested", "-500")]])]

/-- Client-page sheets with a negative rejected amount. -/
def negQualitySheets : RTSheets := [("Quality", [[("rejected", "-500")]])]

/-! ### Helper lemmas -/

/-- Folding addition of a projected value equals the initial accumulator
plus the sum of the projections. -/
theorem foldl_add_rat {α : Type} (f : α → Rat) (l : List α) :
    ∀ a : Rat, l.foldl (fun s r => s + f r) a = a + (l.map f).sum := by
  induction l with
  | nil => intro a; simp
  | cons x xs ih => intro a; simp [ih, add_assoc]

/-- Natural-number version of the folded-addition lemma. -/
theorem foldl_add_nat {α : Type} (f : α → Nat) (l : List α) :
    ∀ a : Nat, l.foldl (fun s r => s + f r) a = a + (l.map f).sum := by
  induction l with
  | nil => intro a; simp
  | cons x xs ih => intro a; simp [ih]; omega

/-- The first-match reading of List.find?: either no element satisfies the
predicate and the search is empty, or some position i satisfies it, every
earlier position fails it, and the search returns position i. -/
theorem find?_first {α : Type} (p : α → Bool) (l : List α) :
    ((∀ x ∈ l, p x = false) ∧ l.find? p = none) ∨
      ∃ i : Fin l.length, p (l.get i) = true ∧
        (∀ j : Fin l.length, (j : Nat) < (i : Nat) → p (l.get j) = false) ∧
        l.find? p = some (l.get i) := by
  induction l with
  | nil => left; simp
  | cons x xs ih =>
    cases hx : p x with
    | true =>
      right
      refine ⟨⟨0, by simp⟩, by simpa using hx, ?_, by simp [List.find?_cons, hx]⟩
      intro j hj
      exact absurd hj (Nat.not_lt_zero _)
    | false =>
      rcases ih with ⟨hall, hnone⟩ | ⟨i, hpi, hfirst, hfind⟩
      · left
        refine ⟨?_, by simp [List.find?_cons, hx, hnone]⟩
        intro y hy
        rcases List.mem_cons.mp hy with rfl | hy2
        · exact hx
        · exact hall y hy2
      · right
        refine ⟨⟨i.1 + 1, by simp [Nat.succ_lt_succ i.2]⟩, by simpa using hpi, ?_,
          by simpa [List.find?_cons, hx] using hfind⟩
        intro j hj
        rcases j with ⟨jv, hjlt⟩
        cases jv with
        | zero => simpa using hx
        | succ jw =>
          have hw : jw < xs.length := by simpa using hjlt
          have := hfirst ⟨jw, hw⟩ (by simpa using Nat.lt_of_succ_lt_succ hj)
          simpa using this

/-- A meaningful value is never empty. -/
theorem meaningful_not_empty {v : String} (h : meaningfulValue v = true) :
    isEmptyValue v = false := by
  simp [meaningfulValue] at h
  exact h.1.1

/-- Closed form of the hasMinimalContent fold from any starting state: the
count grows by the number of meaningful fields, and the flag absorbs whether
some meaningful field has an important name and a nonempty value. -/
theorem minimalScan_go (l : Row) :
    ∀ (n : Nat) (b : Bool),
      l.foldl minimalStep (n, b) =
        (n + l.countP (fun kv => meaningfulValue kv.2),
         b || l.any (fun kv =>
           meaningfulValue kv.2 && (importantFieldName kv.1 && !(isEmptyValue kv.2)))) := by
  induction l with
  | nil => intro n b; simp
  | cons kv tl ih =>
    intro n b
    cases h : meaningfulValue kv.2 with
    | false =>
      simp [List.foldl_cons, minimalStep, h, ih, List.countP_cons, List.any_cons]
    | true =>
      simp [List.foldl_cons, minimalStep, h, ih, List.countP_cons, List.any_cons,
        Bool.or_assoc]
      omega

/-! ### Claim theorems -/

/-- C1, counterexample: on the spec's own financial-aggregation example the
revenue aggregator reports categories = 0, not the claimed 1, because the
rows' Category field is not among the descriptive fields the category set is
built from. -/
theorem revenue_example_counterexample :
    detectRevenueData exampleRevenueSnapshot =
      { total := 3000, sources := 1, categories := 0, records := 2, trend := "neutral" } ∧
    (detectRevenueData exampleRevenueSnapshot).categories ≠ 1 :=
  ⟨by decide, by decide⟩

/-- C1, amended: on the example snapshot the revenue aggregator reports
total = 3000, sources = 1 and records = 2, but categories = 0, since the
category set is built only from the fixed descriptive fields Crop, Variety,
Type, Department, Vendor, Description, which the rows lack; renaming the
category column to Crop yields categories = 1. -/
theorem revenue_example_amended :
    (detectRevenueData exampleRevenueSnapshot).total = 3000 ∧
    (detectRevenueData exampleRevenueSnapshot).sources = 1 ∧
    (detectRevenueData exampleRevenueSnapshot).records = 2 ∧
    (detectRevenueData exampleRevenueSnapshot).categories = 0 ∧
    (detectRevenueData exampleCropSnapshot).categories = 1 :=
  ⟨by decide, by decide, by decide, by decide, by decide⟩

/-- C2, counterexample: the record with BatchID B1 and Notes x is rejected
by hasMinimalContent, although the claim says it is accepted: the
single-character value x is not counted as meaningful, leaving only one
meaningful field. -/
theorem hasMinimalContent_x_counterexample :
    hasMinimalContent [("BatchID", "B1"), ("Notes", "x")] = false := by
  decide

/-- C2, amended: hasMinimalContent is exactly the conjunction of having at
least two meaningful fields and some meaningful field with an important name
(and nonempty value); it rejects the two-meaningful-no-important record, it
rejects the BatchID/x record because x is a single-character value and so
not meaningful, and it accepts the record once the note is two characters. -/
theorem hasMinimalContent_conjunction :
    (∀ r : Row, hasMinimalContent r =
      (2 ≤ r.countP (fun kv => meaningfulValue kv.2) &&
        r.any (fun kv =>
          meaningfulValue kv.2 && (importantFieldName kv.1 && !(isEmptyValue kv.2))))) ∧
    hasMinimalContent [("Notes", "ok"), ("Comment", "fine")] = false ∧
    hasMinimalContent [("BatchID", "B1"), ("Notes", "x")] = false ∧
    hasMinimalContent [("BatchID", "B1"), ("Notes", "ok")] = true := by
  refine ⟨?_, by decide, by decide, by decide⟩
  intro r
  simp [hasMinimalContent, minimalContentScan, minimalScan_go]

/-- C3: sheet classification returns the first config entry in declaration
order matched by the uppercased sheet name or by a header substring, and
general when none matches; in particular Batch_Revenue with headers BatchID
and Revenue classifies as production-batches, not financial-revenue. -/
theorem detectSheetType_first_match :
    detectSheetType "Batch_Revenue" ["BatchID", "Revenue"] = "production-batches" ∧
    ∀ (name : String) (headers : List String),
      ((∀ e ∈ SHEET_TYPE_CONFIG, entryMatches name headers e = false) ∧
        detectSheetType name headers = "general") ∨
      ∃ i : Fin SHEET_TYPE_CONFIG.length,
        entryMatches name headers (SHEET_TYPE_CONFIG.get i) = true ∧
        (∀ j : Fin SHEET_TYPE_CONFIG.length, (j : Nat) < (i : Nat) →
          entryMatches name headers (SHEET_TYPE_CONFIG.get j) = false) ∧
        detectSheetType name headers = (SHEET_TYPE_CONFIG.get i).stype := by
  refine ⟨by decide, ?_⟩
  intro name headers
  rcases find?_first (entryMatches name headers) SHEET_TYPE_CONFIG with
    ⟨hall, hnone⟩ | ⟨i, hp, hfirst, hfind⟩
  · left
    exact ⟨hall, by simp [detectSheetType, hnone]⟩
  · right
    exact ⟨i, hp, hfirst, by simp [detectSheetType, hfind]⟩

/-- C4, counterexample: on the euro input the code returns 0 while the
claimed normalizer (which strips the euro sign) returns 100: the regex class
of cleanNumericValue does not contain € £ ¥. -/
theorem cleanNumericValue_euro_counterexample :
    cleanNumericValue (some "€100") = 0 ∧
    normalizeAmountClaimed (some "€100") = 100 ∧
    cleanNumericValue (some "€100") ≠ normalizeAmountClaimed (some "€100") :=
  ⟨by decide, by decide, by decide⟩

/-- C4, amended: for every input, cleanNumericValue deletes exactly the five
characters comma, k, g, ₹, $ (each anywhere in the string — so the kg unit
suffix is removed, but € £ ¥ are not stripped) and parses the remainder,
returning 0 on parse failure or missing input; the spec's round-trips hold. -/
theorem cleanNumericValue_amended :
    (∀ s : String, cleanNumericValue (some s) =
      orZero (jsParseFloat (String.mk (s.data.filter
        (fun c => !(decide (c ∈ ([',', 'k', 'g', '₹', '$'] : List Char)))))))) ∧
    cleanNumericValue (some "₹1,25,000") = 125000 ∧
    cleanNumericValue (some "") = 0 ∧
    cleanNumericValue none = 0 ∧
    cleanNumericValue (some "5kg") = 5 ∧
    cleanNumericValue (some "€100") = 0 := by
  refine ⟨?_, by decide, by decide, by decide, by decide, by decide⟩
  intro s
  have hfun : (fun c : Char => !(c = ',' || c = 'k' || c = 'g' || c = '₹' || c = '$'))
      = (fun c : Char => !(decide (c ∈ ([',', 'k', 'g', '₹', '$'] : List Char)))) := by
    funext c
    simp [List.mem_cons, Bool.and_assoc]
  simp only [cleanNumericValue, hfun]

/-- C5: every serial-date candidate converts by the epoch-shift formula
Unix epoch + (serial − 25569) days in milliseconds, and an integral serial
in the candidate range yields zero UTC hour and minute components; in
particular serial 45901. -/
theorem serialDate_conversion :
    (∀ q : Rat, isExcelDateNum q = true → excelSerialToMillis q = (q - 25569) * 86400000) ∧
    (∀ s : Int, isExcelDateNum (s : Rat) = true →
      utcHourOfMillis ((s - 25569) * 86400000) = 0 ∧
      utcMinuteOfMillis ((s - 25569) * 86400000) = 0) := by
  constructor
  · intro q _
    unfold excelSerialToMillis
    ring
  · intro s _
    constructor
    · unfold utcHourOfMillis
      show (Int.ediv ((s - 25569) * 86400000) 3600000) % 24 = 0
      have h1 : (s - 25569) * 86400000 = ((s - 25569) * 24) * 3600000 := by ring
      rw [h1, show Int.ediv (((s - 25569) * 24) * 3600000) 3600000 = (s - 25569) * 24 from
        Int.mul_ediv_cancel _ (by norm_num)]
      omega
    · unfold utcMinuteOfMillis
      show (Int.ediv ((s - 25569) * 86400000) 60000) % 60 = 0
      have h1 : (s - 25569) * 86400000 = ((s - 25569) * 1440) * 60000 := by ring
      rw [h1, show Int.ediv (((s - 25569) * 1440) * 60000) 60000 = (s - 25569) * 1440 from
        Int.mul_ediv_cancel _ (by norm_num)]
      omega

/-- C5, witness: the serial 45901 is a candidate and its conversion has zero
UTC hour and minute. -/
theorem serialDate_conversion_witness :
    isExcelDateNum ((45901 : Int) : Rat) = true ∧
    utcHourOfMillis (((45901 : Int) - 25569) * 86400000) = 0 ∧
    utcMinuteOfMillis (((45901 : Int) - 25569) * 86400000) = 0 :=
  ⟨by decide, (serialDate_conversion.2 45901 (by decide)).1,
    (serialDate_conversion.2 45901 (by decide)).2⟩

/-- C6, counterexample: the single header RevenueAmount passes both the
revenue filter (substring revenue) and the expense filter (substring
amount), so the one column's value 1000 is added to both the revenue total
and the expense total of the same snapshot, refuting mutual exclusivity. -/
theorem financial_overlap_counterexample :
    headerRelevant true "RevenueAmount" = true ∧
    headerRelevant false "RevenueAmount" = true ∧
    (detectFinancialData bothKindsSnapshot true).total = 1000 ∧
    (detectFinancialData bothKindsSnapshot false).total = 1000 :=
  ⟨by decide, by decide, by decide, by decide⟩

/-- Financial detection on a one-sheet snapshot never inspects the sheet
name, so the sheet's classification is irrelevant to it. -/
theorem detectFinancialData_name_blind (b : Bool) (n1 n2 : String) (sh : Sheet) :
    detectFinancialData [(n1, sh)] b = detectFinancialData [(n2, sh)] b := rfl

/-- C6, amended: the two keyword sets are disjoint as sets of words and the
detection scans every sheet whatever its name (hence whatever its
classification), but matching is by substring, so a header containing
keywords of both kinds — such as RevenueAmount — has its column's values
added to both the revenue and the expense totals. -/
theorem financial_keyword_detection_amended :
    (∀ k ∈ financialSearchFields true, k ∉ financialSearchFields false) ∧
    (∀ name : String,
      (detectFinancialData [(name, ⟨["RevenueAmount"], [[("RevenueAmount", "1000")]]⟩)] true).total = 1000 ∧
      (detectFinancialData [(name, ⟨["RevenueAmount"], [[("RevenueAmount", "1000")]]⟩)] false).total = 1000) ∧
    headerRelevant true "RevenueAmount" = true ∧
    headerRelevant false "RevenueAmount" = true := by
  refine ⟨by decide, ?_, by decide, by decide⟩
  intro name
  constructor
  · rw [detectFinancialData_name_blind true name "Sheet1"]
    decide
  · rw [detectFinancialData_name_blind false name "Sheet1"]
    decide

/-- C6, witness: the revenue keyword revenue is not an expense keyword. -/
theorem financial_keyword_detection_witness :
    "revenue" ∉ financialSearchFields false :=
  financial_keyword_detection_amended.1 "revenue" (by decide)

/-- C7, counterexample: a sheet named Batch_List classifies as
production-batches and its single row has a valid future expected-harvest
date, yet the production aggregator counts zero active batches for it,
because rows are taken from the literal sheet name Batches only; the same
sheet under the name Batches yields one active batch. -/
theorem production_selection_counterexample :
    detectSheetType "Batch_List" ["BatchID", "ExpectedHarvest"] = "production-batches" ∧
    activeRow isoDateParse sampleNow batchListRow = true ∧
    (calculateProductionMetrics isoDateParse sampleNow misnamedBatchSnapshot).activeBatches = 0 ∧
    (calculateProductionMetrics isoDateParse sampleNow namedBatchSnapshot).activeBatches = 1 :=
  ⟨by decide, by decide, by decide, by decide⟩

/-- C7, amended: the production aggregator reads the literal sheet names
Batches and Harvest_Log (snapshots without them yield all-zero metrics,
whatever sheets they classify as production-batches); activeBatches counts
exactly the Batches rows whose ExpectedHarvest is present, truthy, and
parses (by the runtime date parser, not the serial-date normalizer) to a
time at or after now — rows without the field are never counted; and per
row the yield is the revised value when nonzero, else the expected value. -/
theorem calculateProductionMetrics_amended :
    (∀ (dparse : String → Option Int) (now : Int) (S : SheetsData),
      sdGet S "Batches" = none → sdGet S "Harvest_Log" = none →
        calculateProductionMetrics dparse now S = ⟨0, 0, 0, 0⟩) ∧
    (∀ (dparse : String → Option Int) (now : Int) (S : SheetsData),
      (calculateProductionMetrics dparse now S).activeBatches =
        (sheetRows S "Batches").countP (activeRow dparse now)) ∧
    (∀ (dparse : String → Option Int) (now : Int) (r : Row),
      activeRow dparse now r = true ↔
        ∃ s, rowGet r "ExpectedHarvest" = some s ∧ s ≠ "" ∧
          ∃ t, dparse s = some t ∧ now ≤ t) ∧
    (∀ (dparse : String → Option Int) (now : Int) (S : SheetsData),
      (calculateProductionMetrics dparse now S).totalExpectedYield =
        ((sheetRows S "Batches").map (fun r =>
          if tryFieldNames r revisedYieldFields = 0 then tryFieldNames r expectedYieldFields
          else tryFieldNames r revisedYieldFields)).sum) ∧
    (calculateProductionMetrics isoDateParse sampleNow namedBatchSnapshot).activeBatches = 1 := by
  refine ⟨?_, ?_, ?_, ?_, by decide⟩
  · intro dparse now S hB hH
    simp [calculateProductionMetrics, sheetRows, hB, hH]
  · intro dparse now S
    simp [calculateProductionMetrics, List.countP_eq_length_filter]
  · intro dparse now r
    unfold activeRow
    cases hg : rowGet r "ExpectedHarvest" with
    | none => simp [hg]
    | some s =>
      by_cases hs : s = ""
      · simp [hg, hs]
      · cases hv : dparse s with
        | none => simp [hg, hs, hv]
        | some t => simp [hg, hs, hv]
  · intro dparse now S
    simp only [calculateProductionMetrics, foldl_add_rat, jsOr, zero_add]

/-- C7, witness: a snapshot holding neither a Batches nor a Harvest_Log
sheet — here the classified-but-misnamed Batch_List snapshot — produces the
all-zero production metrics. -/
theorem calculateProductionMetrics_amended_witness :
    calculateProductionMetrics isoDateParse sampleNow misnamedBatchSnapshot = ⟨0, 0, 0, 0⟩ :=
  calculateProductionMetrics_amended.1 isoDateParse sampleNow misnamedBatchSnapshot rfl rfl

/-- C8: for every snapshot the summary-card titles are, in order, revenue,
expenses, net profit, active batches, harvested total, quality score, then
an on-time-delivery card exactly when at least one delivery is recorded,
with the total-records card always last; the two concrete snapshots show
both shapes. -/
theorem summaryCards_order :
    (∀ (dparse : String → Option Int) (now : Int) (S : SheetsData),
      (generateAgriculturalSummaryCards dparse now S).map Card.title =
        if 0 < (calculateHarvestMetrics S).totalDeliveries then
          ["Total Revenue", "Total Expenses", "Net Profit", "Active Batches",
           "Total Harvested", "Quality Score", "On-Time Delivery", "Total Records"]
        else
          ["Total Revenue", "Total Expenses", "Net Profit", "Active Batches",
           "Total Harvested", "Quality Score", "Total Records"]) ∧
    (generateAgriculturalSummaryCards isoDateParse sampleNow deliverySnapshot).map Card.title =
      ["Total Revenue", "Total Expenses", "Net Profit", "Active Batches",
       "Total Harvested", "Quality Score", "On-Time Delivery", "Total Records"] ∧
    (generateAgriculturalSummaryCards isoDateParse sampleNow []).map Card.title =
      ["Total Revenue", "Total Expenses", "Net Profit", "Active Batches",
       "Total Harvested", "Quality Score", "Total Records"] := by
  refine ⟨?_, by decide, by decide⟩
  intro dparse now S
  by_cases h : 0 < (calculateHarvestMetrics S).totalDeliveries <;>
    simp [generateAgriculturalSummaryCards, h]

/-- C9: the assembled snapshot is always fully populated — its metadata
counts equal the input's sheet and record counts and its raw data echoes the
input for every snapshot, and on the empty snapshot, on a sheet with empty
header and row lists, and on a row missing every expected column, all
metric fields are the zero/empty defaults (the embedding is a total
function, rendering the never-throws clause). -/
theorem dashboard_snapshot_defaults :
    (∀ (dparse : String → Option Int) (now : Int) (S : SheetsData),
      (generateDynamicDashboard dparse now S).metadata.totalSheets = S.length ∧
      (generateDynamicDashboard dparse now S).metadata.totalRecords =
        (S.map (fun p => p.2.rows.length)).sum ∧
      (generateDynamicDashboard dparse now S).sheets.length = S.length ∧
      (generateDynamicDashboard dparse now S).rawData = S) ∧
    ((generateDynamicDashboard isoDateParse sampleNow []).production = ⟨0, 0, 0, 0⟩ ∧
      (generateDynamicDashboard isoDateParse sampleNow []).quality = ⟨0, 0, 0, 0, 0, 0⟩ ∧
      (generateDynamicDashboard isoDateParse sampleNow []).revenue = ⟨0, 0, 0, 0, "neutral"⟩ ∧
      (generateDynamicDashboard isoDateParse sampleNow []).expenses = ⟨0, 0, 0, 0, "neutral"⟩ ∧
      (generateDynamicDashboard isoDateParse sampleNow []).financial = ⟨0, 0, 0, 0, 0, 0⟩ ∧
      (generateDynamicDashboard isoDateParse sampleNow []).operationalMetrics = ⟨0, 0, 0, 0, 0⟩ ∧
      (generateDynamicDashboard isoDateParse sampleNow []).metadata =
        ⟨"Triton Food Works Masterbook", 0, 0, "Agriculture & Food Processing", "connected"⟩ ∧
      (generateDynamicDashboard isoDateParse sampleNow []).sheets = [] ∧
      (generateDynamicDashboard isoDateParse sampleNow []).sheetsConfig = []) ∧
    ((generateDynamicDashboard isoDateParse sampleNow emptySheetSnapshot).production = ⟨0, 0, 0, 0⟩ ∧
      (generateDynamicDashboard isoDateParse sampleNow emptySheetSnapshot).quality = ⟨0, 0, 0, 0, 0, 0⟩ ∧
      (generateDynamicDashboard isoDateParse sampleNow emptySheetSnapshot).revenue.total = 0 ∧
      (generateDynamicDashboard isoDateParse sampleNow emptySheetSnapshot).metadata.totalRecords = 0) ∧
    ((generateDynamicDashboard isoDateParse sampleNow sparseRowSnapshot).production = ⟨0, 0, 0, 0⟩ ∧
      (generateDynamicDashboard isoDateParse sampleNow sparseRowSnapshot).revenue.total = 0 ∧
      (generateDynamicDashboard isoDateParse sampleNow sparseRowSnapshot).metadata.totalRecords = 1) := by
  refine ⟨?_, ⟨by decide, by decide, by decide, by decide, by decide, by decide, by decide,
    rfl, rfl⟩, ⟨by decide, by decide, by decide, by decide⟩, ⟨by decide, by decide, by decide⟩⟩
  intro dparse now S
  refine ⟨rfl, ?_, by simp [generateDynamicDashboard], rfl⟩
  simp only [generateDynamicDashboard, totalRecordCount, foldl_add_nat, Nat.zero_add]

/-- C10: the client page's extractNumericValue is nonnegative for every row
and candidate list; guarded accumulation never decreases under any step or
any row list (negative entries can never reduce a total); and the negative
cell amount −500 contributes +500 to the revenue, expense, harvested and
rejected totals that consume it. -/
theorem extractNumericValue_absolute :
    (∀ (r : Row) (fields : List String), 0 ≤ extractNumericValue r fields) ∧
    (∀ (fields : List String) (acc : Rat) (r : Row), acc ≤ rtGuardedStep fields acc r) ∧
    (∀ (fields : List String) (rows : List Row) (acc : Rat),
      acc ≤ rows.foldl (rtGuardedStep fields) acc) ∧
    extractNumericValue [("amount", "-500")] rtRevAmountFields = 500 ∧
    rtRevenueTotal negRevenueSheets = 500 ∧
    rtExpenseTotal negExpenseSheets = 500 ∧
    rtHarvestedTotal negHarvestSheets = 500 ∧
    rtRejectedTotal negQualitySheets = 500 := by
  have hstep : ∀ (fields : List String) (acc : Rat) (r : Row),
      acc ≤ rtGuardedStep fields acc r := by
    intro fields acc r
    unfold rtGuardedStep
    by_cases h : 0 < extractNumericValue r fields
    · simp only [if_pos h]
      linarith
    · simp [h]
  have hfold : ∀ (fields : List String) (rows : List Row) (acc : Rat),
      acc ≤ rows.foldl (rtGuardedStep fields) acc := by
    intro fields rows
    induction rows with
    | nil => intro acc; simp
    | cons r rs ih => intro acc; exact le_trans (hstep fields acc r) (ih _)
  refine ⟨?_, hstep, hfold, by decide, by decide, by decide, by decide, by decide⟩
  intro r fields
  induction fields with
  | nil => simp [extractNumericValue]
  | cons f fs ih =>
    rw [extractNumericValue]
    cases hg : rowGet r f with
    | none => exact ih
    | some s =>
      dsimp only
      cases hp : jsParseFloat (rtKeepNumeric s) with
      | none => exact ih
      | some q => exact abs_nonneg q

end TFW
